import Mathlib

/-!
Statusphere example app (Go): persistence store and request handlers.

A shallow embedding of `internal/db/db.go` and `internal/handlers/handlers.go`.

* A database is the content of the three tables created by `Migrate`
  (`status`, `auth_session`, `auth_state`); each table is the list of its rows
  in insertion order.  The primary-key constraints of the schema are the
  predicate `DB.Valid`.
* Every store method is the SQL statement it sends, read with SQLite's
  semantics, on a migrated database reached over a live connection.  A Go
  `error` is the message string it carries; failures of the connection itself
  are outside the model.
* A handler maps the handler value, the decoded request and the formatted
  clock reading to the response written, the database afterwards and the list
  of records handed to `SaveStatus`.
-/

set_option linter.dupNamespace false

namespace Statusphere

/-! ## internal/db/db.go -/

/-- Row of table `status` (`type Status`). -/
structure Status where
  URI : String
  AuthorDID : String
  Status : String
  CreatedAt : String
  IndexedAt : String
deriving DecidableEq, Repr

/-- Row of table `auth_session` (`type AuthSession`). -/
structure AuthSession where
  Key : String
  Session : String
deriving DecidableEq, Repr

/-- Row of table `auth_state` (`type AuthState`). -/
structure AuthState where
  Key : String
  State : String
deriving DecidableEq, Repr

/-- Content of the database after `Migrate`: one list of rows per table. -/
structure DB where
  status : List Status
  auth_session : List AuthSession
  auth_state : List AuthState
deriving DecidableEq, Repr

/-- The schema of `Migrate`: `uri` is the primary key of `status`, `key` the
primary key of `auth_session` and of `auth_state`. -/
def DB.Valid (db : DB) : Prop :=
  (db.status.map (fun s => s.URI)).Nodup ∧
  (db.auth_session.map (fun s => s.Key)).Nodup ∧
  (db.auth_state.map (fun s => s.Key)).Nodup

instance (db : DB) : Decidable db.Valid := by
  unfold DB.Valid; infer_instance

/-- The database right after `Migrate` on a new file: three empty tables. -/
def DB.empty : DB := ⟨[], [], []⟩

/-- Rows of table `status` whose `uri` is `uri`. -/
def DB.statusRows (db : DB) (uri : String) : List Status :=
  db.status.filter (fun s => s.URI = uri)

/-- Rows of table `auth_session` whose `key` is `key`. -/
def DB.sessionRows (db : DB) (key : String) : List AuthSession :=
  db.auth_session.filter (fun s => s.Key = key)

/-- Rows of table `auth_state` whose `key` is `key`. -/
def DB.stateRows (db : DB) (key : String) : List AuthState :=
  db.auth_state.filter (fun s => s.Key = key)

/-- Message of `sql.ErrNoRows`, which `sqlx` `Get` returns on an empty result. -/
def ErrNoRows : String := "sql: no rows in result set"

/-- Bytes of a TEXT value.  SQLite orders TEXT under the default BINARY
collation by comparing the UTF-8 bytes. -/
def textBytes (s : String) : List Nat :=
  s.toList.flatMap fun c => (String.utf8EncodeChar c).map UInt8.toNat

/-- Row `a` may come before row `b` under `ORDER BY indexedAt DESC`. -/
def indexedAtDesc (a b : Status) : Prop :=
  textBytes b.IndexedAt ≤ textBytes a.IndexedAt

instance : DecidableRel indexedAtDesc := fun a b => by
  unfold indexedAtDesc; infer_instance

instance : IsTotal Status indexedAtDesc := ⟨fun _ _ => le_total _ _⟩

instance : IsTrans Status indexedAtDesc := ⟨fun _ _ _ h1 h2 => le_trans h2 h1⟩

/-- The clause `ORDER BY indexedAt DESC`.  SQLite leaves the order of rows
with equal keys open; here they keep their table order. -/
def orderByIndexedAtDesc (rows : List Status) : List Status :=
  rows.insertionSort indexedAtDesc

/-- The clause `LIMIT ?` with a bound Go `int`: a negative value means no
upper bound in SQLite. -/
def sqlLimit (limit : Int) (rows : List Status) : List Status :=
  if limit < 0 then rows else rows.take limit.toNat

/-- Go `GetRecentStatuses`:
`SELECT * FROM status ORDER BY indexedAt DESC LIMIT ?`. -/
def GetRecentStatuses (db : DB) (limit : Int) : Except String (List Status) :=
  .ok (sqlLimit limit (orderByIndexedAtDesc db.status))

/-- Go `GetUserStatus`:
`SELECT * FROM status WHERE authorDid = ? ORDER BY indexedAt DESC LIMIT 1`,
read with `Get`, which fails with `sql.ErrNoRows` when no row comes back. -/
def GetUserStatus (db : DB) (authorDID : String) : Except String Status :=
  match sqlLimit 1 (orderByIndexedAtDesc (db.status.filter (fun s => s.AuthorDID = authorDID))) with
  | [] => .error ("failed to get user status: " ++ ErrNoRows)
  | status :: _ => .ok status

/-- Go `SaveStatus`:
`INSERT INTO status (...) VALUES (?, ?, ?, ?, ?)
 ON CONFLICT (uri) DO UPDATE SET status = excluded.status, indexedAt = excluded.indexedAt`. -/
def SaveStatus (db : DB) (status : Status) : Except String DB :=
  if db.status.any (fun row => row.URI = status.URI) then
    .ok { db with status := db.status.map (fun row =>
            if row.URI = status.URI then
              { row with Status := status.Status, IndexedAt := status.IndexedAt }
            else row) }
  else
    .ok { db with status := db.status ++ [status] }

/-- Go `DeleteStatus`: `DELETE FROM status WHERE uri = ?`. -/
def DeleteStatus (db : DB) (uri : String) : Except String DB :=
  .ok { db with status := db.status.filter (fun row => ¬ row.URI = uri) }

/-- Go `GetAuthSession`: `SELECT * FROM auth_session WHERE key = ?`, read with `Get`. -/
def GetAuthSession (db : DB) (key : String) : Except String String :=
  match db.auth_session.filter (fun row => row.Key = key) with
  | [] => .error ("failed to get auth session: " ++ ErrNoRows)
  | session :: _ => .ok session.Session

/-- Go `SaveAuthSession`:
`INSERT INTO auth_session (key, session) VALUES (?, ?)
 ON CONFLICT (key) DO UPDATE SET session = excluded.session`. -/
def SaveAuthSession (db : DB) (key sessionData : String) : Except String DB :=
  if db.auth_session.any (fun row => row.Key = key) then
    .ok { db with auth_session := db.auth_session.map (fun row =>
            if row.Key = key then { row with Session := sessionData } else row) }
  else
    .ok { db with auth_session := db.auth_session ++ [⟨key, sessionData⟩] }

/-- Go `DeleteAuthSession`: `DELETE FROM auth_session WHERE key = ?`. -/
def DeleteAuthSession (db : DB) (key : String) : Except String DB :=
  .ok { db with auth_session := db.auth_session.filter (fun row => ¬ row.Key = key) }

/-- Go `GetAuthState`: `SELECT * FROM auth_state WHERE key = ?`, read with `Get`. -/
def GetAuthState (db : DB) (key : String) : Except String String :=
  match db.auth_state.filter (fun row => row.Key = key) with
  | [] => .error ("failed to get auth state: " ++ ErrNoRows)
  | state :: _ => .ok state.State

/-- Go `SaveAuthState`:
`INSERT INTO auth_state (key, state) VALUES (?, ?)
 ON CONFLICT (key) DO UPDATE SET state = excluded.state`. -/
def SaveAuthState (db : DB) (key stateData : String) : Except String DB :=
  if db.auth_state.any (fun row => row.Key = key) then
    .ok { db with auth_state := db.auth_state.map (fun row =>
            if row.Key = key then { row with State := stateData } else row) }
  else
    .ok { db with auth_state := db.auth_state ++ [⟨key, stateData⟩] }

/-- Go `DeleteAuthState`: `DELETE FROM auth_state WHERE key = ?`. -/
def DeleteAuthState (db : DB) (key : String) : Except String DB :=
  .ok { db with auth_state := db.auth_state.filter (fun row => ¬ row.Key = key) }

/-! ## internal/config/config.go -/

/-- Go `Config`. -/
structure Config where
  Host : String
  Port : Int
  Debug : Bool
  PublicURL : String
  DBPath : String
  CookieSecret : String
  Environment : String
deriving DecidableEq, Repr

/-! ## internal/handlers/handlers.go -/

/-- Go value held in a session value map, whose keys and values have static
type `interface{}`. -/
inductive Value where
  | str (s : String)
  | int (i : Int)
  | bool (b : Bool)
deriving DecidableEq, Repr

/-- Go `session.Values`, a `map[interface{}]interface{}`, as the list of its
bindings; the empty list is the empty map. -/
abbrev Values := List (Value × Value)

/-- Map index expression `values[key]`: `none` is the nil interface that Go
yields for a key that is not in the map. -/
def Values.index (values : Values) (key : Value) : Option Value :=
  match values.find? (fun kv => kv.1 = key) with
  | some kv => some kv.2
  | none => none

/-- Go type assertion `x.(string)` in its two-result form. -/
def assertString : Option Value → String × Bool
  | some (.str s) => (s, true)
  | _ => ("", false)

/-- The `sessions.CookieStore` as the handlers use it: `saveErr values` is the
error that `session.Save` reports when it encodes `values` into the cookie,
`none` when it succeeds. -/
structure CookieStore where
  saveErr : Values → Option String

/-- Go `Handlers` (the parsed templates are left out). -/
structure Handlers where
  cfg : Config
  db : DB
  store : CookieStore

/-- The parts of an `*http.Request` the handlers read.  `sid` is the value map
the cookie `sid` decodes to, `none` when the cookie is missing or does not
verify; `form` is the outcome of `r.ParseForm()`. -/
structure Request where
  Host : String
  sid : Option Values
  form : Except String (List (String × List String))

/-- What a handler writes to the `http.ResponseWriter`: status code,
`Location` header, body, and the value map of the session cookie set by
`session.Save`. -/
structure Response where
  code : Nat
  location : Option String
  body : String
  setCookie : Option Values
deriving DecidableEq, Repr

/-- Result of running a handler: the response, the database afterwards, and
the records handed to `SaveStatus`, in call order. -/
structure Outcome where
  resp : Response
  db : DB
  saved : List Status
deriving DecidableEq, Repr

/-- The untouched `http.ResponseWriter`. -/
def Response.new : Response := ⟨200, none, "", none⟩

/-- Go `h.store.Get(r, name)` with its error dropped: the value map decoded
from the cookie of that name, or the empty map of a new session. -/
def CookieStore.Get (_store : CookieStore) (r : Request) (name : String) : Values :=
  if name = "sid" then r.sid.getD [] else []

/-- Go `session.Save(r, w)`: on success the cookie carrying `values` is set. -/
def CookieStore.Save (store : CookieStore) (values : Values) (w : Response) :
    Except String Response :=
  match store.saveErr values with
  | some err => .error err
  | none => .ok { w with setCookie := some values }

/-- Go `http.Error(w, msg, code)`. -/
def httpError (w : Response) (msg : String) (code : Nat) : Response :=
  { w with code := code, body := msg ++ "\n" }

/-- Go `http.Redirect(w, r, url, code)` answering a POST, which gets no body. -/
def httpRedirect (w : Response) (url : String) (code : Nat) : Response :=
  { w with code := code, location := some url }

/-- Go `r.FormValue(key)` after `r.ParseForm()` succeeded: the first value
for `key`, or the empty string. -/
def FormValue (form : List (String × List String)) (key : String) : String :=
  match form.find? (fun kv => kv.1 = key) with
  | some (_, v :: _) => v
  | _ => ""

def StatusUnauthorized : Nat := 401
def StatusBadRequest : Nat := 400
def StatusInternalServerError : Nat := 500
def StatusFound : Nat := 302

/-- Go `HandleLogout`. -/
def HandleLogout (h : Handlers) (r : Request) : Outcome :=
  let _session := h.store.Get r "sid"
  let values : Values := []
  match h.store.Save values Response.new with
  | .error _ =>
    ⟨httpError Response.new "Internal Server Error" StatusInternalServerError, h.db, []⟩
  | .ok w => ⟨httpRedirect w "/" StatusFound, h.db, []⟩

/-- Go `UpdateStatus`; `now` is `time.Now().UTC().Format(time.RFC3339)`. -/
def UpdateStatus (h : Handlers) (r : Request) (now : String) : Outcome :=
  let session := h.store.Get r "sid"
  let (userDID, ok) := assertString (session.index (.str "did"))
  if !ok || userDID = "" then
    ⟨httpError Response.new "Error: Session required" StatusUnauthorized, h.db, []⟩
  else
    match r.form with
    | .error _ =>
      ⟨httpError Response.new "Error: Invalid form data" StatusBadRequest, h.db, []⟩
    | .ok form =>
      let statusText := FormValue form "status"
      if statusText = "" then
        ⟨httpError Response.new "Error: Invalid status" StatusBadRequest, h.db, []⟩
      else
        let status : Status :=
          { URI := "at://" ++ userDID ++ "/xyz.statusphere.status/temporary"
            AuthorDID := userDID
            Status := statusText
            CreatedAt := now
            IndexedAt := now }
        match SaveStatus h.db status with
        | .error _ =>
          ⟨httpError Response.new "Error: Failed to save status" StatusInternalServerError,
            h.db, [status]⟩
        | .ok db' => ⟨httpRedirect Response.new "/" StatusFound, db', [status]⟩

/-! ## Sample data -/

def sampleStatus : Status :=
  { URI := "at://did:plc:abc/xyz.statusphere.status/temporary"
    AuthorDID := "did:plc:abc"
    Status := "Feeling great"
    CreatedAt := "2024-05-01T10:00:00Z"
    IndexedAt := "2024-05-01T10:00:00Z" }

def sampleStatus2 : Status :=
  { URI := "at://did:plc:abc/xyz.statusphere.status/temporary"
    AuthorDID := "did:plc:abc"
    Status := "Feeling fine"
    CreatedAt := "2024-05-02T09:30:00Z"
    IndexedAt := "2024-05-02T09:30:00Z" }

def otherStatus : Status :=
  { URI := "at://did:plc:xyz/xyz.statusphere.status/temporary"
    AuthorDID := "did:plc:xyz"
    Status := "ok"
    CreatedAt := "2024-04-30T08:00:00Z"
    IndexedAt := "2024-04-30T08:00:00Z" }

def conflictingStatus : Status :=
  { URI := "at://did:plc:xyz/xyz.statusphere.status/temporary"
    AuthorDID := "did:plc:abc"
    Status := "changed"
    CreatedAt := "2024-05-03T12:00:00Z"
    IndexedAt := "2024-05-03T12:00:00Z" }

def sampleDB : DB := ⟨[otherStatus], [⟨"k1", "v1"⟩], [⟨"s1", "w1"⟩]⟩

def sampleConfig : Config :=
  { Host := "127.0.0.1"
    Port := 8080
    Debug := false
    PublicURL := ""
    DBPath := "./statusphere.db"
    CookieSecret := "secret"
    Environment := "development" }

def sampleHandlers : Handlers := ⟨sampleConfig, sampleDB, ⟨fun _ => none⟩⟩

def sampleRequest : Request :=
  { Host := "127.0.0.1:8080"
    sid := some [(.str "did", .str "did:plc:abc"), (.str "displayName", .str "Abc")]
    form := .ok [("status", ["Feeling great"])] }

def anonymousRequest : Request :=
  { Host := "127.0.0.1:8080"
    sid := none
    form := .ok [("status", ["Feeling great"])] }

def emptyFormRequest : Request :=
  { Host := "127.0.0.1:8080"
    sid := some [(.str "did", .str "did:plc:abc")]
    form := .ok [("status", [""])] }

def sampleNow : String := "2024-05-01T10:00:00Z"

/-! ## internal/atproto/client.go -/

namespace atproto

/-- Go `xrpc.AuthInfo`, the fields `Login` fills in. -/
structure AuthInfo where
  AccessJwt : String
  RefreshJwt : String
  Handle : String
  Did : String
deriving DecidableEq, Repr

/-- Go `xrpc.Client`, the fields the client sets. -/
structure XrpcClient where
  Host : String
  Auth : Option AuthInfo
deriving DecidableEq, Repr

/-- Go `Client`. -/
structure Client where
  xrpcClient : XrpcClient
  pdsHost : String
  loggedIn : Bool
deriving DecidableEq, Repr

/-- Go `Config` of package `atproto`. -/
structure Config where
  PdsHost : String
deriving DecidableEq, Repr

/-- Go `atproto.ServerCreateSession_Output`, the fields `Login` reads. -/
structure ServerCreateSession_Output where
  AccessJwt : String
  RefreshJwt : String
  Handle : String
  Did : String
deriving DecidableEq, Repr

/-- Go `bsky.ActorDefs_ProfileViewDetailed`, the fields printed by
`cmd/test-atproto`. -/
structure ActorDefs_ProfileViewDetailed where
  Did : String
  DisplayName : String
  Description : String
  FollowersCount : Int
  FollowsCount : Int
deriving DecidableEq, Repr

/-- The PDS behind `xrpc`: what it answers to the two calls the client makes. -/
structure Remote where
  ServerCreateSession : XrpcClient → String → String → Except String ServerCreateSession_Output
  ActorGetProfile : XrpcClient → String → Except String ActorDefs_ProfileViewDetailed

/-- A call sent to the PDS. -/
inductive RemoteCall where
  | createSession (identifier password : String)
  | getProfile (handle : String)
deriving DecidableEq, Repr

/-- Go `NewClient`. -/
def NewClient (cfg : Config) : Except String Client :=
  if cfg.PdsHost = "" then
    .error "PDS host is required"
  else
    let xrpcClient : XrpcClient := { Host := cfg.PdsHost, Auth := none }
    .ok { xrpcClient := xrpcClient, pdsHost := cfg.PdsHost, loggedIn := false }

/-- Result of `Login`: the error returned (`none` for nil), the client
afterwards and the calls sent to the PDS. -/
structure LoginResult where
  err : Option String
  client : Client
  calls : List RemoteCall

/-- Go `Login`. -/
def Login (pds : Remote) (c : Client) (identifier password : String) : LoginResult :=
  if identifier = "" ∨ password = "" then
    ⟨some "identifier and password are required", c, []⟩
  else
    match pds.ServerCreateSession c.xrpcClient identifier password with
    | .error err =>
      ⟨some ("failed to create session: " ++ err), c, [.createSession identifier password]⟩
    | .ok session =>
      ⟨none,
        { c with
          xrpcClient := { c.xrpcClient with
            Auth := some { AccessJwt := session.AccessJwt
                           RefreshJwt := session.RefreshJwt
                           Handle := session.Handle
                           Did := session.Did } }
          loggedIn := true },
        [.createSession identifier password]⟩

/-- Result of `GetProfile`: the profile or the error, and the calls sent to
the PDS. -/
structure ProfileResult where
  result : Except String ActorDefs_ProfileViewDetailed
  calls : List RemoteCall

/-- Go `GetProfile`. -/
def GetProfile (pds : Remote) (c : Client) (handle : String) : ProfileResult :=
  if !c.loggedIn then
    ⟨.error "client not authenticated", []⟩
  else
    match pds.ActorGetProfile c.xrpcClient handle with
    | .error err => ⟨.error ("failed to get profile: " ++ err), [.getProfile handle]⟩
    | .ok profile => ⟨.ok profile, [.getProfile handle]⟩

/-- Go `IsLoggedIn`. -/
def Client.IsLoggedIn (c : Client) : Bool := c.loggedIn

/-- Go `PdsHost`. -/
def Client.PdsHost (c : Client) : String := c.pdsHost

/-- A login attempt: the PDS as it answers at that moment, and the
credentials passed to `Login`. -/
structure Attempt where
  pds : Remote
  identifier : String
  password : String

/-- Client and returned errors after a series of `Login` calls on one client. -/
def loginAll (c : Client) : List Attempt → Client × List (Option String)
  | [] => (c, [])
  | a :: rest =>
    let res := Login a.pds c a.identifier a.password
    let after := loginAll res.client rest
    (after.1, res.err :: after.2)

/-- A PDS that accepts one account and knows one profile. -/
def samplePds : Remote :=
  { ServerCreateSession := fun _ identifier password =>
      if identifier = "alice.test" ∧ password = "app-password" then
        .ok ⟨"access", "refresh", "alice.test", "did:plc:alice"⟩
      else .error "AuthenticationRequired"
    ActorGetProfile := fun _ handle =>
      if handle = "alice.test" then .ok ⟨"did:plc:alice", "Alice", "", 0, 0⟩
      else .error "Profile not found" }

def sampleClient : Client :=
  { xrpcClient := { Host := "https://bsky.social", Auth := none }
    pdsHost := "https://bsky.social"
    loggedIn := false }

def failedAttempts : List Attempt :=
  [⟨samplePds, "", "app-password"⟩, ⟨samplePds, "alice.test", ""⟩,
   ⟨samplePds, "alice.test", "wrong"⟩]

end atproto

/-! ## internal/handlers/handlers.go: client metadata -/

/-- Values that occur in the metadata map of `ClientMetadata`. -/
inductive JsonValue where
  | str (s : String)
  | bool (b : Bool)
  | strings (items : List String)
deriving DecidableEq, Repr

/-- A Go `map[string]interface{}` given to the JSON encoder, as the list of
its bindings. -/
abbrev JsonObject := List (String × JsonValue)

/-- Value bound to `key` in a JSON object. -/
def JsonObject.get (o : JsonObject) (key : String) : Option JsonValue :=
  match o.find? (fun kv => kv.1 = key) with
  | some kv => some kv.2
  | none => none

/-- Result of a handler that answers with JSON: status code, `Content-Type`
header, the value that `json.NewEncoder(w).Encode` writes as the body, the
session cookie set, the database afterwards and the records handed to
`SaveStatus`. -/
structure JsonOutcome where
  code : Nat
  contentType : String
  json : JsonObject
  setCookie : Option Values
  db : DB
  saved : List Status
deriving DecidableEq, Repr

/-- Go `ClientMetadata`. -/
def ClientMetadata (h : Handlers) (r : Request) : JsonOutcome :=
  let publicURL := h.cfg.PublicURL
  let publicURL := if publicURL = "" then "http://" ++ r.Host else publicURL
  let metadata : JsonObject :=
    [ ("client_name", .str "AT Protocol Express App (Go)"),
      ("client_id", .str (publicURL ++ "/client-metadata.json")),
      ("client_uri", .str publicURL),
      ("redirect_uris", .strings [publicURL ++ "/oauth/callback"]),
      ("scope", .str "atproto transition:generic"),
      ("grant_types", .strings ["authorization_code", "refresh_token"]),
      ("response_types", .strings ["code"]),
      ("application_type", .str "web"),
      ("token_endpoint_auth_method", .str "none"),
      ("dpop_bound_access_tokens", .bool true) ]
  { code := 200
    contentType := "application/json"
    json := metadata
    setCookie := none
    db := h.db
    saved := [] }

def configuredHandlers : Handlers :=
  ⟨{ sampleConfig with PublicURL := "https://status.example" }, sampleDB, ⟨fun _ => none⟩⟩

def otherHostRequest : Request :=
  { Host := "status.example"
    sid := none
    form := .ok [] }

/-! ## Serving a series of status submissions -/

/-- Identity that `UpdateStatus` reads from the session of `r`. -/
def sessionDID (h : Handlers) (r : Request) : String :=
  (assertString ((h.store.Get r "sid").index (.str "did"))).1

/-- Status text that `UpdateStatus` reads from the form of `r`. -/
def formStatus (r : Request) : String :=
  match r.form with
  | .ok form => FormValue form "status"
  | .error _ => ""

/-- The uri that `UpdateStatus` writes for an identity. -/
def statusURI (userDID : String) : String :=
  "at://" ++ userDID ++ "/xyz.statusphere.status/temporary"

/-- Rows of table `status` whose `authorDid` is `authorDID`. -/
def DB.authorRows (db : DB) (authorDID : String) : List Status :=
  db.status.filter (fun s => s.AuthorDID = authorDID)

/-- Database and responses after `UpdateStatus` has served the requests in
order, each paired with the clock reading of its request. -/
def serveUpdates (h : Handlers) (steps : List (Request × String)) : DB × List Response :=
  steps.foldl (fun acc step =>
    ((UpdateStatus { h with db := acc.1 } step.1 step.2).db,
      acc.2 ++ [(UpdateStatus { h with db := acc.1 } step.1 step.2).resp])) (h.db, [])

/-- The rows an author is said to have after submitting `subs`, oldest first:
none without a submission, else one row with the text and `indexedAt` of the
latest submission and the `createdAt` of the first. -/
def specAuthorRows (d : String) : List (Request × String) → List Status
  | [] => []
  | first :: rest =>
    [{ URI := statusURI d
       AuthorDID := d
       Status := formStatus (rest.getLastD first).1
       CreatedAt := first.2
       IndexedAt := (rest.getLastD first).2 }]

def freshHandlers : Handlers := ⟨sampleConfig, DB.empty, ⟨fun _ => none⟩⟩

def secondRequest : Request :=
  { Host := "127.0.0.1:8080"
    sid := some [(.str "did", .str "did:plc:abc")]
    form := .ok [("status", ["Feeling fine"])] }

def sampleSteps : List (Request × String) :=
  [(sampleRequest, "2024-05-01T10:00:00Z"), (secondRequest, "2024-05-02T09:30:00Z")]

def priorStatus : Status :=
  { URI := "at://did:plc:abc/xyz.statusphere.status/temporary"
    AuthorDID := "did:plc:abc"
    Status := "Old news"
    CreatedAt := "2020-01-01T00:00:00Z"
    IndexedAt := "2020-01-01T00:00:00Z" }

def resubmitHandlers : Handlers := ⟨sampleConfig, ⟨[priorStatus], [], []⟩, ⟨fun _ => none⟩⟩

/-! ## Lists of rows keyed by a column -/

section Keyed

variable {α κ : Type} [DecidableEq κ]

theorem filter_key_map (f : α → κ) (g : α → α) (hg : ∀ x, f (g x) = f x) (l : List α) (k : κ) :
    (l.map g).filter (fun x => f x = k) = (l.filter (fun x => f x = k)).map g := by
  induction l with
  | nil => rfl
  | cons a l ih =>
    by_cases h : f a = k
    · have h' : f (g a) = k := by rw [hg]; exact h
      simp [List.filter_cons, h, h', ih]
    · have h' : ¬ f (g a) = k := by rw [hg]; exact h
      simp [List.filter_cons, h, h', ih]

theorem filter_key_length_le_one (f : α → κ) (l : List α) (h : (l.map f).Nodup) (k : κ) :
    (l.filter (fun x => f x = k)).length ≤ 1 := by
  induction l with
  | nil => simp
  | cons a l ih =>
    rw [List.map_cons, List.nodup_cons] at h
    by_cases hk : f a = k
    · have hnil : l.filter (fun x => f x = k) = [] := by
        rw [List.filter_eq_nil_iff]
        intro x hx hxk
        apply h.1
        rw [hk, ← of_decide_eq_true hxk]
        exact List.mem_map_of_mem f hx
      simp [List.filter_cons, hk, hnil]
    · simpa [List.filter_cons, hk] using ih h.2

theorem filter_key_eq_singleton (f : α → κ) (l : List α) (h : (l.map f).Nodup) (e : α)
    (he : e ∈ l) : l.filter (fun x => f x = f e) = [e] := by
  have hmem : e ∈ l.filter (fun x => f x = f e) := by
    rw [List.mem_filter]; exact ⟨he, by simp⟩
  have hlen := filter_key_length_le_one f l h (f e)
  match hl : l.filter (fun x => f x = f e), hmem, hlen with
  | [x], hmem, _ => rw [List.mem_singleton] at hmem; rw [hmem]
  | _ :: _ :: _, _, hlen => simp at hlen

theorem map_id_on (g : α → α) (l : List α) (h : ∀ x ∈ l, g x = x) : l.map g = l := by
  induction l with
  | nil => rfl
  | cons a l ih =>
    rw [List.map_cons, h a (List.mem_cons_self a l),
      ih (fun x hx => h x (List.mem_cons_of_mem a hx))]

theorem filter_other_key_map (f : α → κ) (g : α → α) (hg : ∀ x, f (g x) = f x) (l : List α)
    (k : κ) :
    (l.map g).filter (fun x => ¬ f x = k) = (l.filter (fun x => ¬ f x = k)).map g := by
  induction l with
  | nil => rfl
  | cons a l ih =>
    simp only [decide_not] at ih ⊢
    by_cases h : f a = k
    · have h' : f (g a) = k := by rw [hg]; exact h
      simp [List.filter_cons, h, h', ih]
    · have h' : ¬ f (g a) = k := by rw [hg]; exact h
      simp [List.filter_cons, h, h', ih]

theorem upsert_rows (f : α → κ) (g : α → α) (hg : ∀ x, f (g x) = f x) (new : α)
    (hnew : ∀ x, f x = f new → g x = new) (l : List α) (hnd : (l.map f).Nodup) :
    (if l.any (fun x => f x = f new) then
        l.map (fun x => if f x = f new then g x else x)
      else l ++ [new]).filter (fun x => f x = f new) = [new] ∧
    ((if l.any (fun x => f x = f new) then
        l.map (fun x => if f x = f new then g x else x)
      else l ++ [new]).map f).Nodup := by
  by_cases hany : l.any (fun x => f x = f new) = true
  · rw [if_pos hany]
    obtain ⟨e, he, hek⟩ := List.any_eq_true.mp hany
    have hek : f e = f new := of_decide_eq_true hek
    have hkey : ∀ x, f (if f x = f new then g x else x) = f x := by
      intro x; split
      · exact hg x
      · rfl
    constructor
    · rw [filter_key_map f _ hkey l (f new), ← hek, filter_key_eq_singleton f l hnd e he]
      rw [List.map_singleton, if_pos rfl, hnew e hek]
    · rw [List.map_map]
      have : l.map (f ∘ fun x => if f x = f new then g x else x) = l.map f :=
        List.map_congr_left (fun x _ => hkey x)
      rw [this]
      exact hnd
  · rw [if_neg hany]
    have hnil : l.filter (fun x => f x = f new) = [] := by
      rw [List.filter_eq_nil_iff]
      intro x hx hxk
      exact hany (List.any_eq_true.mpr ⟨x, hx, hxk⟩)
    constructor
    · rw [List.filter_append, hnil]
      simp [List.filter_cons]
    · rw [List.map_append, List.nodup_append]
      refine ⟨hnd, by simp, ?_⟩
      intro a ha hb
      rw [List.map_singleton, List.mem_singleton] at hb
      obtain ⟨x, hx, hxa⟩ := List.mem_map.mp ha
      apply hany
      exact List.any_eq_true.mpr ⟨x, hx, by simp [hxa, hb]⟩

theorem filter_key_filter_other (f : α → κ) (l : List α) (k : κ) :
    (l.filter (fun x => ¬ f x = k)).filter (fun x => f x = k) = [] := by
  rw [List.filter_eq_nil_iff]
  intro x hx hxk
  have h1 := (List.mem_filter.mp hx).2
  simp only [decide_not, Bool.not_eq_true', decide_eq_false_iff_not] at h1
  exact h1 (of_decide_eq_true hxk)

end Keyed

/-! ## Table `status` -/

theorem SaveStatus_spec (db : DB) (r : Status) :
    ∃ db', SaveStatus db r = .ok db' ∧
      db'.auth_session = db.auth_session ∧ db'.auth_state = db.auth_state ∧
      (∀ u, u ≠ r.URI → db'.statusRows u = db.statusRows u) ∧
      (db.statusRows r.URI = [] → db'.statusRows r.URI = [r]) ∧
      db'.statusRows r.URI ≠ [] ∧
      (db.statusRows r.URI ≠ [] → db'.statusRows r.URI =
        (db.statusRows r.URI).map
          (fun e => { e with Status := r.Status, IndexedAt := r.IndexedAt })) ∧
      (db.statusRows r.URI ≠ [] →
        db'.status.map (fun s => s.URI) = db.status.map (fun s => s.URI)) ∧
      ((db.status.map (fun s => s.URI)).Nodup → (db'.status.map (fun s => s.URI)).Nodup) := by
  by_cases hany : db.status.any (fun row => row.URI = r.URI) = true
  · have hne : db.statusRows r.URI ≠ [] := by
      obtain ⟨x, hx, hxu⟩ := List.any_eq_true.mp hany
      intro hnil
      have : x ∈ db.statusRows r.URI := List.mem_filter.mpr ⟨hx, hxu⟩
      rw [hnil] at this
      exact List.not_mem_nil x this
    have hkey : ∀ x : Status,
        (if x.URI = r.URI then
          { x with Status := r.Status, IndexedAt := r.IndexedAt } else x).URI = x.URI := by
      intro x; split <;> rfl
    have hrows := filter_key_map (fun s : Status => s.URI) _ hkey db.status
    have hmapkeys : (db.status.map (fun row =>
        if row.URI = r.URI then
          { row with Status := r.Status, IndexedAt := r.IndexedAt } else row)).map
          (fun s => s.URI) = db.status.map (fun s => s.URI) := by
      rw [List.map_map]
      exact List.map_congr_left (fun x _ => hkey x)
    refine ⟨{ db with status := db.status.map (fun row =>
        if row.URI = r.URI then
          { row with Status := r.Status, IndexedAt := r.IndexedAt } else row) },
      by simp only [SaveStatus, hany, if_true], rfl, rfl, ?_, ?_, ?_, ?_, ?_, ?_⟩
    · intro u hu
      show List.filter _ _ = _
      rw [hrows u]
      apply map_id_on
      intro x hx
      have hxu : x.URI = u := of_decide_eq_true (List.mem_filter.mp hx).2
      rw [if_neg (by rw [hxu]; exact hu)]
    · intro hnil; exact absurd hnil hne
    · show List.filter _ _ ≠ _
      rw [hrows r.URI]
      intro hmap
      exact hne (List.map_eq_nil_iff.mp hmap)
    · intro _
      show List.filter _ _ = _
      rw [hrows r.URI]
      apply List.map_congr_left
      intro x hx
      have hxu : x.URI = r.URI := of_decide_eq_true (List.mem_filter.mp hx).2
      rw [if_pos hxu]
    · intro _; exact hmapkeys
    · intro hnd
      show (List.map _ (List.map _ _)).Nodup
      rw [hmapkeys]; exact hnd
  · have hnil : db.statusRows r.URI = [] := by
      unfold DB.statusRows
      rw [List.filter_eq_nil_iff]
      intro x hx hxu
      exact hany (List.any_eq_true.mpr ⟨x, hx, hxu⟩)
    have happ : ∀ u, List.filter (fun s : Status => decide (s.URI = u)) (db.status ++ [r]) =
        db.statusRows u ++ List.filter (fun s : Status => decide (s.URI = u)) [r] := by
      intro u; rw [List.filter_append]; rfl
    refine ⟨{ db with status := db.status ++ [r] },
      by simp only [SaveStatus, hany]; rfl, rfl, rfl, ?_, ?_, ?_, ?_, ?_, ?_⟩
    · intro u hu
      show List.filter _ _ = _
      rw [happ u]
      simp [List.filter_cons, Ne.symm hu]
    · intro _
      show List.filter _ _ = _
      rw [happ r.URI, hnil]
      simp [List.filter_cons]
    · show List.filter _ _ ≠ _
      rw [happ r.URI, hnil]
      simp [List.filter_cons]
    · intro hne; exact absurd hnil hne
    · intro hne; exact absurd hnil hne
    · intro hnd
      show (List.map _ (_ ++ _)).Nodup
      rw [List.map_append, List.nodup_append]
      refine ⟨hnd, by simp, ?_⟩
      intro a ha hb
      rw [List.map_singleton, List.mem_singleton] at hb
      obtain ⟨x, hx, hxa⟩ := List.mem_map.mp ha
      apply hany
      exact List.any_eq_true.mpr ⟨x, hx, by simp [hxa, hb]⟩

theorem SaveStatus_valid (db db' : DB) (r : Status) (hv : db.Valid)
    (h : SaveStatus db r = .ok db') : db'.Valid := by
  obtain ⟨db1, h1, hs, ht, -, -, -, -, -, hnd⟩ := SaveStatus_spec db r
  rw [h1] at h
  cases h
  exact ⟨hnd hv.1, by rw [hs]; exact hv.2.1, by rw [ht]; exact hv.2.2⟩

theorem statusRows_length_le_one (db : DB) (hv : db.Valid) (u : String) :
    (db.statusRows u).length ≤ 1 :=
  filter_key_length_le_one (fun s : Status => s.URI) db.status hv.1 u

theorem SaveStatus_others (db db' : DB) (r : Status) (h : SaveStatus db r = .ok db') :
    db'.status.filter (fun row => ¬ row.URI = r.URI) =
      db.status.filter (fun row => ¬ row.URI = r.URI) := by
  unfold SaveStatus at h
  split at h
  · cases h
    show List.filter _ (List.map _ _) = _
    rw [filter_other_key_map (fun s : Status => s.URI) _ (by intro x; split <;> rfl)]
    apply map_id_on
    intro x hx
    have hxu := (List.mem_filter.mp hx).2
    simp only [decide_not, Bool.not_eq_true', decide_eq_false_iff_not] at hxu
    rw [if_neg hxu]
  · cases h
    show List.filter _ (_ ++ _) = _
    rw [List.filter_append]
    simp [List.filter_cons]

/-- C1: saving a record whose uri is new and reading that uri back gives the
record, so its text; saving a second record with the same uri leaves exactly
one row for that uri, carrying the second text; and in a database that
satisfies the primary key no uri ever has more than one row after a save. -/
theorem SaveStatus_upsert (db : DB) (r r2 : Status)
    (hfresh : db.statusRows r.URI = []) (hsame : r2.URI = r.URI) :
    ∃ db1 db2, SaveStatus db r = .ok db1 ∧ SaveStatus db1 r2 = .ok db2 ∧
      db1.statusRows r.URI = [r] ∧
      db2.statusRows r.URI = [{ r with Status := r2.Status, IndexedAt := r2.IndexedAt }] ∧
      (db2.statusRows r.URI).length = 1 ∧
      (db2.statusRows r.URI).map (fun row => row.Status) = [r2.Status] ∧
      (db.Valid → db1.Valid ∧ db2.Valid ∧
        ∀ u, (db1.statusRows u).length ≤ 1 ∧ (db2.statusRows u).length ≤ 1) := by
  obtain ⟨db1, h1, -, -, -, hnew, -, -, -, -⟩ := SaveStatus_spec db r
  obtain ⟨db2, h2, -, -, -, -, -, hupd, -, -⟩ := SaveStatus_spec db1 r2
  have hrow1 := hnew hfresh
  have hrow2 : db2.statusRows r.URI =
      [{ r with Status := r2.Status, IndexedAt := r2.IndexedAt }] := by
    rw [hsame] at hupd
    rw [hupd (by rw [hrow1]; exact List.cons_ne_nil _ _), hrow1]
    rfl
  refine ⟨db1, db2, h1, h2, hrow1, hrow2, by rw [hrow2]; rfl, by rw [hrow2]; rfl, ?_⟩
  intro hv
  have hv1 := SaveStatus_valid db db1 r hv h1
  have hv2 := SaveStatus_valid db1 db2 r2 hv1 h2
  exact ⟨hv1, hv2, fun u =>
    ⟨statusRows_length_le_one db1 hv1 u, statusRows_length_le_one db2 hv2 u⟩⟩

theorem SaveStatus_upsert_witness :
    sampleDB.statusRows sampleStatus.URI = [] ∧ sampleStatus2.URI = sampleStatus.URI ∧
    ∃ db1 db2, SaveStatus sampleDB sampleStatus = .ok db1 ∧
      SaveStatus db1 sampleStatus2 = .ok db2 ∧
      db1.statusRows sampleStatus.URI = [sampleStatus] ∧
      db2.statusRows sampleStatus.URI =
        [{ sampleStatus with Status := sampleStatus2.Status,
                             IndexedAt := sampleStatus2.IndexedAt }] ∧
      (db2.statusRows sampleStatus.URI).length = 1 ∧
      (db2.statusRows sampleStatus.URI).map (fun row => row.Status) = [sampleStatus2.Status] ∧
      (sampleDB.Valid → db1.Valid ∧ db2.Valid ∧
        ∀ u, (db1.statusRows u).length ≤ 1 ∧ (db2.statusRows u).length ≤ 1) :=
  ⟨by decide, rfl, SaveStatus_upsert sampleDB sampleStatus sampleStatus2 (by decide) rfl⟩

theorem sqlLimit_of_nonneg (n : Int) (hn : 0 ≤ n) (rows : List Status) :
    sqlLimit n rows = rows.take n.toNat := by
  unfold sqlLimit
  rw [if_neg (not_lt.mpr hn)]

theorem orderBy_pairwise (rows : List Status) :
    (orderByIndexedAtDesc rows).Pairwise
      (fun a b => textBytes b.IndexedAt ≤ textBytes a.IndexedAt) :=
  List.sorted_insertionSort indexedAtDesc rows

theorem orderBy_perm (rows : List Status) : (orderByIndexedAtDesc rows).Perm rows :=
  List.perm_insertionSort indexedAtDesc rows

/-- C2, as the code has it: for a limit `n` that is not negative,
`GetRecentStatuses` succeeds with at most `n` rows of the table (exactly
`min n (number of rows)`), their `indexedAt` non-increasing from first to last
in SQLite's TEXT order, and with no row at all when the table is empty. -/
theorem GetRecentStatuses_bounded_sorted (db : DB) (n : Int) (hn : 0 ≤ n) :
    ∃ rows, GetRecentStatuses db n = .ok rows ∧
      (rows.length : Int) ≤ n ∧
      rows.length = min n.toNat db.status.length ∧
      rows.Pairwise (fun a b => textBytes b.IndexedAt ≤ textBytes a.IndexedAt) ∧
      (∀ row ∈ rows, row ∈ db.status) ∧
      (db.status = [] → rows = []) := by
  refine ⟨(orderByIndexedAtDesc db.status).take n.toNat, ?_, ?_, ?_, ?_, ?_, ?_⟩
  · unfold GetRecentStatuses
    rw [sqlLimit_of_nonneg n hn]
  · have h1 : ((orderByIndexedAtDesc db.status).take n.toNat).length ≤ n.toNat :=
      List.length_take_le _ _
    have h2 : ((n.toNat : Nat) : Int) = n := Int.toNat_of_nonneg hn
    omega
  · rw [List.length_take, (orderBy_perm db.status).length_eq]
  · exact (orderBy_pairwise db.status).sublist (List.take_sublist _ _)
  · intro row hrow
    exact (orderBy_perm db.status).subset (List.mem_of_mem_take hrow)
  · intro hnil
    rw [hnil]
    simp [orderByIndexedAtDesc]

theorem GetRecentStatuses_bounded_sorted_witness :
    (0 : Int) ≤ 1 ∧
    ∃ rows, GetRecentStatuses sampleDB 1 = .ok rows ∧
      (rows.length : Int) ≤ 1 ∧
      rows.length = min (1 : Int).toNat sampleDB.status.length ∧
      rows.Pairwise (fun a b => textBytes b.IndexedAt ≤ textBytes a.IndexedAt) ∧
      (∀ row ∈ rows, row ∈ sampleDB.status) ∧
      (sampleDB.status = [] → rows = []) :=
  ⟨by decide, GetRecentStatuses_bounded_sorted sampleDB 1 (by decide)⟩

/-- C2 as stated fails: with limit `-1` the query has no upper bound, so on a
table of one row it returns that row, which is more than `-1` rows. -/
theorem GetRecentStatuses_negative_limit :
    ∃ rows, GetRecentStatuses sampleDB (-1) = .ok rows ∧ rows = [otherStatus] ∧
      ¬ ((rows.length : Int) ≤ -1) :=
  ⟨[otherStatus], rfl, rfl, by decide⟩

/-- C3: when no row has the author, `GetUserStatus` fails with the no-rows
error and yields no record; when some row has the author it succeeds with a
row of that author whose `indexedAt` is at least that of every row of the
author, in SQLite's TEXT order. -/
theorem GetUserStatus_latest (db : DB) (a : String) :
    ((∀ row ∈ db.status, row.AuthorDID ≠ a) →
      GetUserStatus db a = .error ("failed to get user status: " ++ ErrNoRows)) ∧
    ((∃ row ∈ db.status, row.AuthorDID = a) →
      ∃ s, GetUserStatus db a = .ok s ∧ s ∈ db.status ∧ s.AuthorDID = a ∧
        ∀ row ∈ db.status, row.AuthorDID = a →
          textBytes row.IndexedAt ≤ textBytes s.IndexedAt) := by
  have hperm := orderBy_perm (db.status.filter (fun s => s.AuthorDID = a))
  have hsorted := orderBy_pairwise (db.status.filter (fun s => s.AuthorDID = a))
  constructor
  · intro hnone
    have hnil : db.status.filter (fun s => s.AuthorDID = a) = [] := by
      rw [List.filter_eq_nil_iff]
      intro x hx hxa
      exact hnone x hx (of_decide_eq_true hxa)
    unfold GetUserStatus
    rw [hnil]
    rfl
  · rintro ⟨row, hrow, hra⟩
    have hmem : row ∈ orderByIndexedAtDesc (db.status.filter (fun s => s.AuthorDID = a)) :=
      hperm.symm.subset (List.mem_filter.mpr ⟨hrow, decide_eq_true hra⟩)
    unfold GetUserStatus
    rw [sqlLimit_of_nonneg 1 (by decide)]
    match hl : orderByIndexedAtDesc (db.status.filter (fun s => s.AuthorDID = a)),
        hmem, hperm, hsorted with
    | s :: rest, _, hperm, hsorted =>
      have hs : s ∈ db.status.filter (fun s => s.AuthorDID = a) :=
        hperm.subset (List.mem_cons_self s rest)
      refine ⟨s, rfl, (List.mem_filter.mp hs).1, of_decide_eq_true (List.mem_filter.mp hs).2, ?_⟩
      intro x hx hxa
      have hx' : x ∈ s :: rest :=
        hperm.symm.subset (List.mem_filter.mpr ⟨hx, decide_eq_true hxa⟩)
      rcases List.mem_cons.mp hx' with h | h
      · rw [h]
      · exact (List.pairwise_cons.mp hsorted).1 x h

theorem GetUserStatus_latest_witness :
    GetUserStatus sampleDB "did:plc:abc" =
      .error ("failed to get user status: " ++ ErrNoRows) ∧
    ∃ s, GetUserStatus sampleDB "did:plc:xyz" = .ok s ∧ s ∈ sampleDB.status ∧
      s.AuthorDID = "did:plc:xyz" ∧
      ∀ row ∈ sampleDB.status, row.AuthorDID = "did:plc:xyz" →
        textBytes row.IndexedAt ≤ textBytes s.IndexedAt :=
  ⟨(GetUserStatus_latest sampleDB "did:plc:abc").1 (by decide),
   (GetUserStatus_latest sampleDB "did:plc:xyz").2 ⟨otherStatus, by decide, rfl⟩⟩

/-! ## Handlers -/

/-- C4: a request whose session has no identity (no `did` value, a `did` that
is not a string, or the empty string) is answered with 401 whatever the form
holds; the database is untouched and `SaveStatus` is not called. -/
theorem UpdateStatus_unauthorized (h : Handlers) (r : Request) (now : String)
    (hno : (h.store.Get r "sid").index (.str "did") = none ∨
      (∃ v, (h.store.Get r "sid").index (.str "did") = some v ∧ ∀ s, v ≠ .str s) ∨
      (h.store.Get r "sid").index (.str "did") = some (.str "")) :
    (UpdateStatus h r now).resp.code = 401 ∧
    (UpdateStatus h r now).resp.location = none ∧
    (UpdateStatus h r now).db = h.db ∧
    (UpdateStatus h r now).saved = [] := by
  unfold UpdateStatus
  rcases hno with h0 | ⟨v, hv, hns⟩ | h0
  · simp [h0, assertString, httpError, Response.new, StatusUnauthorized]
  · cases v with
    | str s => exact absurd rfl (hns s)
    | int i => simp [hv, assertString, httpError, Response.new, StatusUnauthorized]
    | bool b => simp [hv, assertString, httpError, Response.new, StatusUnauthorized]
  · simp [h0, assertString, httpError, Response.new, StatusUnauthorized]

theorem UpdateStatus_unauthorized_witness :
    ((sampleHandlers.store.Get anonymousRequest "sid").index (.str "did") = none ∨
      (∃ v, (sampleHandlers.store.Get anonymousRequest "sid").index (.str "did") = some v ∧
        ∀ s, v ≠ .str s) ∨
      (sampleHandlers.store.Get anonymousRequest "sid").index (.str "did") = some (.str "")) ∧
    (UpdateStatus sampleHandlers anonymousRequest sampleNow).resp.code = 401 ∧
    (UpdateStatus sampleHandlers anonymousRequest sampleNow).resp.location = none ∧
    (UpdateStatus sampleHandlers anonymousRequest sampleNow).db = sampleHandlers.db ∧
    (UpdateStatus sampleHandlers anonymousRequest sampleNow).saved = [] :=
  ⟨Or.inl rfl, UpdateStatus_unauthorized sampleHandlers anonymousRequest sampleNow (Or.inl rfl)⟩

/-- C5: a request with an identity in its session whose `status` form field
reads as the empty string (the field is missing or empty) is answered with
400; the database is untouched and `SaveStatus` is not called. -/
theorem UpdateStatus_empty_status (h : Handlers) (r : Request) (now d : String)
    (hd : (h.store.Get r "sid").index (.str "did") = some (.str d)) (hne : d ≠ "")
    (hfield : ∀ form, r.form = .ok form → FormValue form "status" = "") :
    (UpdateStatus h r now).resp.code = 400 ∧
    (UpdateStatus h r now).resp.location = none ∧
    (UpdateStatus h r now).db = h.db ∧
    (UpdateStatus h r now).saved = [] := by
  unfold UpdateStatus
  cases hf : r.form with
  | error e => simp [hd, hne, assertString, httpError, Response.new, StatusBadRequest]
  | ok form =>
    simp [hd, hne, assertString, hfield form hf, httpError, Response.new, StatusBadRequest]

theorem UpdateStatus_empty_status_witness :
    (sampleHandlers.store.Get emptyFormRequest "sid").index (.str "did") =
      some (.str "did:plc:abc") ∧
    "did:plc:abc" ≠ "" ∧
    (∀ form, emptyFormRequest.form = .ok form → FormValue form "status" = "") ∧
    (UpdateStatus sampleHandlers emptyFormRequest sampleNow).resp.code = 400 ∧
    (UpdateStatus sampleHandlers emptyFormRequest sampleNow).resp.location = none ∧
    (UpdateStatus sampleHandlers emptyFormRequest sampleNow).db = sampleHandlers.db ∧
    (UpdateStatus sampleHandlers emptyFormRequest sampleNow).saved = [] :=
  have hfield : ∀ form, emptyFormRequest.form = .ok form → FormValue form "status" = "" :=
    fun form hf => by cases hf; rfl
  ⟨rfl, by decide, hfield,
    UpdateStatus_empty_status sampleHandlers emptyFormRequest sampleNow "did:plc:abc" rfl
      (by decide) hfield⟩

/-- C6, as the code has it: with identity `d` in the session and status text
`t`, both non-empty, `UpdateStatus` builds the record with author `d`, text
`t`, uri `"at://" ++ d ++ "/"` followed by the record-type suffix and both
timestamps equal to the request time, hands exactly that record to
`SaveStatus`, whose write succeeds, and redirects to `/`.  Afterwards the row
of that uri carries text `t` and `indexedAt = now`; it is the record itself
when the uri was new, and otherwise it is the row that was there, with its
`authorDid` and `createdAt`, and only text and `indexedAt` replaced. -/
theorem UpdateStatus_creates (h : Handlers) (r : Request) (now d t : String)
    (form : List (String × List String))
    (hd : (h.store.Get r "sid").index (.str "did") = some (.str d)) (hne : d ≠ "")
    (hform : r.form = .ok form) (ht : FormValue form "status" = t) (htne : t ≠ "") :
    ∃ st db',
      st.AuthorDID = d ∧ st.Status = t ∧ st.CreatedAt = now ∧ st.IndexedAt = now ∧
      st.URI = ("at://" ++ d ++ "/") ++ "xyz.statusphere.status/temporary" ∧
      SaveStatus h.db st = .ok db' ∧
      (UpdateStatus h r now).saved = [st] ∧
      (UpdateStatus h r now).db = db' ∧
      (UpdateStatus h r now).resp.code = 302 ∧
      (UpdateStatus h r now).resp.location = some "/" ∧
      db'.statusRows st.URI ≠ [] ∧
      (∀ row ∈ db'.statusRows st.URI, row.Status = t ∧ row.IndexedAt = now) ∧
      (h.db.statusRows st.URI = [] → db'.statusRows st.URI = [st]) ∧
      (h.db.statusRows st.URI ≠ [] →
        db'.statusRows st.URI = (h.db.statusRows st.URI).map
          (fun e => { URI := e.URI, AuthorDID := e.AuthorDID, Status := t,
                      CreatedAt := e.CreatedAt, IndexedAt := now })) ∧
      (h.db.Valid → ∀ e ∈ h.db.status, e.URI = st.URI →
        db'.statusRows st.URI =
          [{ URI := e.URI, AuthorDID := e.AuthorDID, Status := t,
             CreatedAt := e.CreatedAt, IndexedAt := now }]) ∧
      (∀ u, u ≠ st.URI → db'.statusRows u = h.db.statusRows u) := by
  obtain ⟨db', hsave, -, -, hframe, hnew, hnonempty, hupd, -, -⟩ := SaveStatus_spec h.db
    { URI := "at://" ++ d ++ "/xyz.statusphere.status/temporary"
      AuthorDID := d, Status := t, CreatedAt := now, IndexedAt := now }
  refine ⟨{ URI := "at://" ++ d ++ "/xyz.statusphere.status/temporary"
            AuthorDID := d, Status := t, CreatedAt := now, IndexedAt := now },
    db', rfl, rfl, rfl, rfl, ?_, hsave, ?_, ?_, ?_, ?_, hnonempty, ?_, hnew, hupd, ?_, hframe⟩
  · show "at://" ++ d ++ "/xyz.statusphere.status/temporary" = _
    rw [String.append_assoc ("at://" ++ d) "/" "xyz.statusphere.status/temporary"]
    rfl
  · unfold UpdateStatus
    simp [hd, hne, assertString, hform, ht, htne, hsave]
  · unfold UpdateStatus
    simp [hd, hne, assertString, hform, ht, htne, hsave]
  · unfold UpdateStatus
    simp [hd, hne, assertString, hform, ht, htne, hsave, httpRedirect, StatusFound]
  · unfold UpdateStatus
    simp [hd, hne, assertString, hform, ht, htne, hsave, httpRedirect, Response.new]
  · intro row hrow
    by_cases hnil : h.db.statusRows
        ("at://" ++ d ++ "/xyz.statusphere.status/temporary") = []
    · rw [hnew hnil, List.mem_singleton] at hrow
      rw [hrow]
      exact ⟨rfl, rfl⟩
    · rw [hupd hnil] at hrow
      obtain ⟨e, -, he⟩ := List.mem_map.mp hrow
      rw [← he]
      exact ⟨rfl, rfl⟩
  · intro hvalid e he heq
    have hrows : h.db.statusRows e.URI = [e] :=
      filter_key_eq_singleton (fun s : Status => s.URI) h.db.status hvalid.1 e he
    simp only at heq hupd
    rw [heq] at hrows
    rw [hupd (by rw [hrows]; exact List.cons_ne_nil _ _), hrows]
    rfl

theorem UpdateStatus_creates_witness :
    (sampleHandlers.store.Get sampleRequest "sid").index (.str "did") =
      some (.str "did:plc:abc") ∧
    "did:plc:abc" ≠ "" ∧
    sampleRequest.form = .ok [("status", ["Feeling great"])] ∧
    FormValue [("status", ["Feeling great"])] "status" = "Feeling great" ∧
    "Feeling great" ≠ "" ∧
    ∃ st db',
      st.AuthorDID = "did:plc:abc" ∧ st.Status = "Feeling great" ∧
      st.CreatedAt = sampleNow ∧ st.IndexedAt = sampleNow ∧
      st.URI = ("at://" ++ "did:plc:abc" ++ "/") ++ "xyz.statusphere.status/temporary" ∧
      SaveStatus sampleHandlers.db st = .ok db' ∧
      (UpdateStatus sampleHandlers sampleRequest sampleNow).saved = [st] ∧
      (UpdateStatus sampleHandlers sampleRequest sampleNow).db = db' ∧
      (UpdateStatus sampleHandlers sampleRequest sampleNow).resp.code = 302 ∧
      (UpdateStatus sampleHandlers sampleRequest sampleNow).resp.location = some "/" ∧
      db'.statusRows st.URI ≠ [] ∧
      (∀ row ∈ db'.statusRows st.URI, row.Status = "Feeling great" ∧
        row.IndexedAt = sampleNow) ∧
      (sampleHandlers.db.statusRows st.URI = [] → db'.statusRows st.URI = [st]) ∧
      (sampleHandlers.db.statusRows st.URI ≠ [] →
        db'.statusRows st.URI = (sampleHandlers.db.statusRows st.URI).map
          (fun e => { URI := e.URI, AuthorDID := e.AuthorDID, Status := "Feeling great",
                      CreatedAt := e.CreatedAt, IndexedAt := sampleNow })) ∧
      (sampleHandlers.db.Valid → ∀ e ∈ sampleHandlers.db.status, e.URI = st.URI →
        db'.statusRows st.URI =
          [{ URI := e.URI, AuthorDID := e.AuthorDID, Status := "Feeling great",
             CreatedAt := e.CreatedAt, IndexedAt := sampleNow }]) ∧
      (∀ u, u ≠ st.URI → db'.statusRows u = sampleHandlers.db.statusRows u) :=
  ⟨rfl, by decide, rfl, rfl, by decide,
    UpdateStatus_creates sampleHandlers sampleRequest sampleNow "did:plc:abc" "Feeling great"
      [("status", ["Feeling great"])] rfl (by decide) rfl rfl (by decide)⟩

/-- C6 as stated fails on a re-submission: when the author already has a row,
the write succeeds and the response is the redirect, but the stored row keeps
its old `createdAt`, so no stored record has `createdAt` equal to the request
time. -/
theorem UpdateStatus_keeps_createdAt :
    (UpdateStatus resubmitHandlers sampleRequest sampleNow).resp.code = 302 ∧
    (UpdateStatus resubmitHandlers sampleRequest sampleNow).resp.location = some "/" ∧
    (UpdateStatus resubmitHandlers sampleRequest sampleNow).saved =
      [{ URI := "at://did:plc:abc/xyz.statusphere.status/temporary"
         AuthorDID := "did:plc:abc"
         Status := "Feeling great"
         CreatedAt := sampleNow
         IndexedAt := sampleNow }] ∧
    (UpdateStatus resubmitHandlers sampleRequest sampleNow).db.status =
      [{ URI := "at://did:plc:abc/xyz.statusphere.status/temporary"
         AuthorDID := "did:plc:abc"
         Status := "Feeling great"
         CreatedAt := "2020-01-01T00:00:00Z"
         IndexedAt := sampleNow }] ∧
    ¬ ∃ row ∈ (UpdateStatus resubmitHandlers sampleRequest sampleNow).db.status,
      row.CreatedAt = sampleNow := by
  decide

/-- C7: when saving the session succeeds, `HandleLogout` writes a session
cookie whose value map is empty and redirects to `/`, leaving the database as
it was; the saved map has no key at all, in particular neither `did` nor
`displayName`, and `UpdateStatus` on any later request that carries the saved
session answers 401 without touching the database. -/
theorem HandleLogout_clears (h : Handlers) (r : Request)
    (hsave : h.store.saveErr [] = none) :
    (HandleLogout h r).resp.code = 302 ∧
    (HandleLogout h r).resp.location = some "/" ∧
    (HandleLogout h r).resp.setCookie = some [] ∧
    (HandleLogout h r).db = h.db ∧
    (∀ values, (HandleLogout h r).resp.setCookie = some values →
      ∀ key, values.index key = none) ∧
    (∀ (h' : Handlers) (r' : Request) (now : String),
      r'.sid = (HandleLogout h r).resp.setCookie →
        (UpdateStatus h' r' now).resp.code = 401 ∧
        (UpdateStatus h' r' now).db = h'.db ∧
        (UpdateStatus h' r' now).saved = []) := by
  have hout : HandleLogout h r =
      ⟨⟨StatusFound, some "/", "", some []⟩, h.db, []⟩ := by
    simp [HandleLogout, CookieStore.Save, hsave, httpRedirect, Response.new]
  rw [hout]
  refine ⟨rfl, rfl, rfl, rfl, ?_, ?_⟩
  · intro values hv key
    cases hv
    rfl
  · intro h' r' now hsid
    have hidx : (h'.store.Get r' "sid").index (.str "did") = none := by
      unfold CookieStore.Get
      rw [if_pos rfl, hsid]
      rfl
    unfold UpdateStatus
    simp [hidx, assertString, httpError, Response.new, StatusUnauthorized]

theorem HandleLogout_clears_witness :
    sampleHandlers.store.saveErr [] = none ∧
    (HandleLogout sampleHandlers sampleRequest).resp.code = 302 ∧
    (HandleLogout sampleHandlers sampleRequest).resp.location = some "/" ∧
    (HandleLogout sampleHandlers sampleRequest).resp.setCookie = some [] ∧
    (HandleLogout sampleHandlers sampleRequest).db = sampleHandlers.db ∧
    (∀ values, (HandleLogout sampleHandlers sampleRequest).resp.setCookie = some values →
      ∀ key, values.index key = none) ∧
    (∀ (h' : Handlers) (r' : Request) (now : String),
      r'.sid = (HandleLogout sampleHandlers sampleRequest).resp.setCookie →
        (UpdateStatus h' r' now).resp.code = 401 ∧
        (UpdateStatus h' r' now).db = h'.db ∧
        (UpdateStatus h' r' now).saved = []) :=
  ⟨rfl, HandleLogout_clears sampleHandlers sampleRequest rfl⟩

/-! ## Frame of a conflicting save, and deletion -/

/-- C8: in a database that satisfies the primary key, saving a record whose
uri is that of an existing row `e` succeeds and changes only the text and
`indexedAt` of that row: the one row of that uri keeps the `authorDid` and
`createdAt` of `e`, the rows of every other uri are the same rows in the same
order, no row is added, and the other two tables are as before. -/
theorem SaveStatus_conflict_frame (db : DB) (e r : Status) (hv : db.Valid)
    (he : e ∈ db.status) (hr : r.URI = e.URI) :
    ∃ db', SaveStatus db r = .ok db' ∧
      db'.statusRows e.URI =
        [{ URI := e.URI, AuthorDID := e.AuthorDID, Status := r.Status,
           CreatedAt := e.CreatedAt, IndexedAt := r.IndexedAt }] ∧
      db'.status.filter (fun row => ¬ row.URI = e.URI) =
        db.status.filter (fun row => ¬ row.URI = e.URI) ∧
      (∀ u, u ≠ e.URI → db'.statusRows u = db.statusRows u) ∧
      db'.status.length = db.status.length ∧
      db'.auth_session = db.auth_session ∧ db'.auth_state = db.auth_state := by
  obtain ⟨db', hsave, hs, ht, hframe, -, -, hupd, hkeys, -⟩ := SaveStatus_spec db r
  have hrows : db.statusRows e.URI = [e] :=
    filter_key_eq_singleton (fun s : Status => s.URI) db.status hv.1 e he
  have hothers := SaveStatus_others db db' r hsave
  rw [hr] at hupd hkeys hframe hothers
  have hne : db.statusRows e.URI ≠ [] := by rw [hrows]; exact List.cons_ne_nil _ _
  refine ⟨db', hsave, ?_, hothers, hframe, ?_, hs, ht⟩
  · rw [hupd hne, hrows]
    rfl
  · have := congrArg List.length (hkeys hne)
    simpa using this

theorem SaveStatus_conflict_frame_witness :
    sampleDB.Valid ∧ otherStatus ∈ sampleDB.status ∧ conflictingStatus.URI = otherStatus.URI ∧
    ∃ db', SaveStatus sampleDB conflictingStatus = .ok db' ∧
      db'.statusRows otherStatus.URI =
        [{ URI := otherStatus.URI, AuthorDID := otherStatus.AuthorDID,
           Status := conflictingStatus.Status,
           CreatedAt := otherStatus.CreatedAt, IndexedAt := conflictingStatus.IndexedAt }] ∧
      db'.status.filter (fun row => ¬ row.URI = otherStatus.URI) =
        sampleDB.status.filter (fun row => ¬ row.URI = otherStatus.URI) ∧
      (∀ u, u ≠ otherStatus.URI → db'.statusRows u = sampleDB.statusRows u) ∧
      db'.status.length = sampleDB.status.length ∧
      db'.auth_session = sampleDB.auth_session ∧ db'.auth_state = sampleDB.auth_state :=
  ⟨by decide, by decide, rfl,
    SaveStatus_conflict_frame sampleDB otherStatus conflictingStatus
      (by decide) (by decide) rfl⟩

/-- C9: `DeleteStatus` returns no error whether or not a row of the uri
exists; afterwards no row has that uri, the rows of every other uri are the
same rows in the same order, the other tables are as before, and deleting the
same uri again gives the same database. -/
theorem DeleteStatus_idempotent (db : DB) (u : String) :
    ∃ db', DeleteStatus db u = .ok db' ∧
      db'.statusRows u = [] ∧
      (∀ row ∈ db'.status, row.URI ≠ u) ∧
      db'.status = db.status.filter (fun row => ¬ row.URI = u) ∧
      (∀ v, v ≠ u → db'.statusRows v = db.statusRows v) ∧
      db'.auth_session = db.auth_session ∧ db'.auth_state = db.auth_state ∧
      DeleteStatus db' u = .ok db' := by
  refine ⟨{ db with status := db.status.filter (fun row => ¬ row.URI = u) },
    rfl, ?_, ?_, rfl, ?_, rfl, rfl, ?_⟩
  · exact filter_key_filter_other (fun s : Status => s.URI) db.status u
  · intro row hrow
    have h1 := (List.mem_filter.mp hrow).2
    simpa using h1
  · intro v hv
    show List.filter _ (List.filter _ _) = List.filter _ _
    rw [List.filter_filter]
    apply List.filter_congr
    intro x _
    by_cases hx : x.URI = v
    · have : ¬ x.URI = u := by rw [hx]; exact hv
      simp [hx, hv]
    · simp [hx]
  · unfold DeleteStatus
    simp only [List.filter_filter, Bool.and_self]

/-! ## Tables `auth_session` and `auth_state` -/

theorem SaveAuthSession_spec (db : DB) (k v : String)
    (hnd : (db.auth_session.map (fun s => s.Key)).Nodup) :
    ∃ db', SaveAuthSession db k v = .ok db' ∧ db'.sessionRows k = [⟨k, v⟩] ∧
      (db'.auth_session.map (fun s => s.Key)).Nodup := by
  have key := upsert_rows (fun s : AuthSession => s.Key) (fun row => { row with Session := v })
    (fun _ => rfl) ⟨k, v⟩ (by intro x hx; cases x; cases hx; rfl) db.auth_session hnd
  dsimp only at key
  by_cases hany : db.auth_session.any (fun row => row.Key = k) = true
  · rw [if_pos hany] at key
    exact ⟨{ db with auth_session := db.auth_session.map (fun row =>
        if row.Key = k then { row with Session := v } else row) },
      by simp only [SaveAuthSession, hany, if_true], key.1, key.2⟩
  · rw [if_neg hany] at key
    exact ⟨{ db with auth_session := db.auth_session ++ [⟨k, v⟩] },
      by simp only [SaveAuthSession, hany]; rfl, key.1, key.2⟩

theorem GetAuthSession_of_rows (db : DB) (k v : String) (h : db.sessionRows k = [⟨k, v⟩]) :
    GetAuthSession db k = .ok v := by
  unfold DB.sessionRows at h
  unfold GetAuthSession
  rw [h]

theorem GetAuthSession_absent (db : DB) (k : String) (h : db.sessionRows k = []) :
    GetAuthSession db k = .error ("failed to get auth session: " ++ ErrNoRows) := by
  unfold DB.sessionRows at h
  unfold GetAuthSession
  rw [h]

theorem DeleteAuthSession_rows (db : DB) (k : String) :
    ∃ db', DeleteAuthSession db k = .ok db' ∧ db'.sessionRows k = [] :=
  ⟨_, rfl, filter_key_filter_other (fun s : AuthSession => s.Key) db.auth_session k⟩

theorem SaveAuthState_spec (db : DB) (k v : String)
    (hnd : (db.auth_state.map (fun s => s.Key)).Nodup) :
    ∃ db', SaveAuthState db k v = .ok db' ∧ db'.stateRows k = [⟨k, v⟩] ∧
      (db'.auth_state.map (fun s => s.Key)).Nodup := by
  have key := upsert_rows (fun s : AuthState => s.Key) (fun row => { row with State := v })
    (fun _ => rfl) ⟨k, v⟩ (by intro x hx; cases x; cases hx; rfl) db.auth_state hnd
  dsimp only at key
  by_cases hany : db.auth_state.any (fun row => row.Key = k) = true
  · rw [if_pos hany] at key
    exact ⟨{ db with auth_state := db.auth_state.map (fun row =>
        if row.Key = k then { row with State := v } else row) },
      by simp only [SaveAuthState, hany, if_true], key.1, key.2⟩
  · rw [if_neg hany] at key
    exact ⟨{ db with auth_state := db.auth_state ++ [⟨k, v⟩] },
      by simp only [SaveAuthState, hany]; rfl, key.1, key.2⟩

theorem GetAuthState_of_rows (db : DB) (k v : String) (h : db.stateRows k = [⟨k, v⟩]) :
    GetAuthState db k = .ok v := by
  unfold DB.stateRows at h
  unfold GetAuthState
  rw [h]

theorem GetAuthState_absent (db : DB) (k : String) (h : db.stateRows k = []) :
    GetAuthState db k = .error ("failed to get auth state: " ++ ErrNoRows) := by
  unfold DB.stateRows at h
  unfold GetAuthState
  rw [h]

theorem DeleteAuthState_rows (db : DB) (k : String) :
    ∃ db', DeleteAuthState db k = .ok db' ∧ db'.stateRows k = [] :=
  ⟨_, rfl, filter_key_filter_other (fun s : AuthState => s.Key) db.auth_state k⟩

/-- C10: in a database that satisfies the primary keys, `GetAuthSession` fails
with the no-rows error for a key that has no row; after `SaveAuthSession k v`
it returns `v`; after a further `SaveAuthSession k v2` it returns `v2` and the
key has exactly one row; after `DeleteAuthSession k` the key has no row and
`GetAuthSession` fails again.  The same holds for `SaveAuthState`,
`GetAuthState` and `DeleteAuthState`. -/
theorem auth_store_laws (db : DB) (k v v2 : String) (hv : db.Valid) :
    (((∀ row ∈ db.auth_session, row.Key ≠ k) →
        GetAuthSession db k = .error ("failed to get auth session: " ++ ErrNoRows)) ∧
      ∃ db1 db2 db3,
        SaveAuthSession db k v = .ok db1 ∧ GetAuthSession db1 k = .ok v ∧
        SaveAuthSession db1 k v2 = .ok db2 ∧ GetAuthSession db2 k = .ok v2 ∧
        db2.sessionRows k = [⟨k, v2⟩] ∧ (db2.sessionRows k).length = 1 ∧
        DeleteAuthSession db2 k = .ok db3 ∧ db3.sessionRows k = [] ∧
        GetAuthSession db3 k = .error ("failed to get auth session: " ++ ErrNoRows)) ∧
    (((∀ row ∈ db.auth_state, row.Key ≠ k) →
        GetAuthState db k = .error ("failed to get auth state: " ++ ErrNoRows)) ∧
      ∃ db1 db2 db3,
        SaveAuthState db k v = .ok db1 ∧ GetAuthState db1 k = .ok v ∧
        SaveAuthState db1 k v2 = .ok db2 ∧ GetAuthState db2 k = .ok v2 ∧
        db2.stateRows k = [⟨k, v2⟩] ∧ (db2.stateRows k).length = 1 ∧
        DeleteAuthState db2 k = .ok db3 ∧ db3.stateRows k = [] ∧
        GetAuthState db3 k = .error ("failed to get auth state: " ++ ErrNoRows)) := by
  refine ⟨⟨?_, ?_⟩, ⟨?_, ?_⟩⟩
  · intro habs
    apply GetAuthSession_absent
    unfold DB.sessionRows
    rw [List.filter_eq_nil_iff]
    intro x hx hxk
    exact habs x hx (of_decide_eq_true hxk)
  · obtain ⟨db1, h1, hr1, hn1⟩ := SaveAuthSession_spec db k v hv.2.1
    obtain ⟨db2, h2, hr2, -⟩ := SaveAuthSession_spec db1 k v2 hn1
    obtain ⟨db3, h3, hr3⟩ := DeleteAuthSession_rows db2 k
    exact ⟨db1, db2, db3, h1, GetAuthSession_of_rows db1 k v hr1, h2,
      GetAuthSession_of_rows db2 k v2 hr2, hr2, by rw [hr2]; rfl, h3, hr3,
      GetAuthSession_absent db3 k hr3⟩
  · intro habs
    apply GetAuthState_absent
    unfold DB.stateRows
    rw [List.filter_eq_nil_iff]
    intro x hx hxk
    exact habs x hx (of_decide_eq_true hxk)
  · obtain ⟨db1, h1, hr1, hn1⟩ := SaveAuthState_spec db k v hv.2.2
    obtain ⟨db2, h2, hr2, -⟩ := SaveAuthState_spec db1 k v2 hn1
    obtain ⟨db3, h3, hr3⟩ := DeleteAuthState_rows db2 k
    exact ⟨db1, db2, db3, h1, GetAuthState_of_rows db1 k v hr1, h2,
      GetAuthState_of_rows db2 k v2 hr2, hr2, by rw [hr2]; rfl, h3, hr3,
      GetAuthState_absent db3 k hr3⟩

theorem auth_store_laws_witness :
    sampleDB.Valid ∧
    (((∀ row ∈ sampleDB.auth_session, row.Key ≠ "k1") →
        GetAuthSession sampleDB "k1" =
          .error ("failed to get auth session: " ++ ErrNoRows)) ∧
      ∃ db1 db2 db3,
        SaveAuthSession sampleDB "k1" "v" = .ok db1 ∧ GetAuthSession db1 "k1" = .ok "v" ∧
        SaveAuthSession db1 "k1" "v2" = .ok db2 ∧ GetAuthSession db2 "k1" = .ok "v2" ∧
        db2.sessionRows "k1" = [⟨"k1", "v2"⟩] ∧ (db2.sessionRows "k1").length = 1 ∧
        DeleteAuthSession db2 "k1" = .ok db3 ∧ db3.sessionRows "k1" = [] ∧
        GetAuthSession db3 "k1" = .error ("failed to get auth session: " ++ ErrNoRows)) ∧
    (((∀ row ∈ sampleDB.auth_state, row.Key ≠ "k1") →
        GetAuthState sampleDB "k1" = .error ("failed to get auth state: " ++ ErrNoRows)) ∧
      ∃ db1 db2 db3,
        SaveAuthState sampleDB "k1" "v" = .ok db1 ∧ GetAuthState db1 "k1" = .ok "v" ∧
        SaveAuthState db1 "k1" "v2" = .ok db2 ∧ GetAuthState db2 "k1" = .ok "v2" ∧
        db2.stateRows "k1" = [⟨"k1", "v2"⟩] ∧ (db2.stateRows "k1").length = 1 ∧
        DeleteAuthState db2 "k1" = .ok db3 ∧ db3.stateRows "k1" = [] ∧
        GetAuthState db3 "k1" = .error ("failed to get auth state: " ++ ErrNoRows)) :=
  ⟨by decide, auth_store_laws sampleDB "k1" "v" "v2" (by decide)⟩

/-! ## AT Protocol client -/

namespace atproto

theorem Login_failed_unchanged (pds : Remote) (c : Client) (identifier password : String)
    (h : (Login pds c identifier password).err ≠ none) :
    (Login pds c identifier password).client = c := by
  unfold Login at h ⊢
  split
  · rfl
  · split
    · rfl
    · rename_i hcall
      rw [if_neg (by assumption), hcall] at h
      exact absurd rfl h

theorem loginAll_failed_unchanged (attempts : List Attempt) (c : Client)
    (h : ∀ e ∈ (loginAll c attempts).2, e ≠ none) : (loginAll c attempts).1 = c := by
  induction attempts generalizing c with
  | nil => rfl
  | cons a rest ih =>
    have hhead : (Login a.pds c a.identifier a.password).err ≠ none :=
      h _ (List.mem_cons_self _ _)
    have hc := Login_failed_unchanged a.pds c a.identifier a.password hhead
    have htail : ∀ e ∈ (loginAll (Login a.pds c a.identifier a.password).client rest).2,
        e ≠ none := fun e he => h e (List.mem_cons_of_mem _ he)
    have := ih _ htail
    rw [hc] at this
    show (loginAll (Login a.pds c a.identifier a.password).client rest).1 = c
    rw [hc]
    exact this

/-- C11: `NewClient` fails exactly when the PDS host is empty, with the error
"PDS host is required" and no client; otherwise it returns a client whose
`PdsHost()` is the configured host and whose `IsLoggedIn()` is false. -/
theorem NewClient_error_iff (cfg : Config) :
    ((∃ e, NewClient cfg = .error e) ↔ cfg.PdsHost = "") ∧
    (cfg.PdsHost = "" → NewClient cfg = .error "PDS host is required") ∧
    (cfg.PdsHost ≠ "" →
      ∃ c, NewClient cfg = .ok c ∧ c.PdsHost = cfg.PdsHost ∧ c.IsLoggedIn = false ∧
        c.xrpcClient.Host = cfg.PdsHost ∧ c.xrpcClient.Auth = none) := by
  by_cases h : cfg.PdsHost = ""
  · have herr : NewClient cfg = .error "PDS host is required" := by
      simp only [NewClient, h, if_true]
    exact ⟨⟨fun _ => h, fun _ => ⟨"PDS host is required", herr⟩⟩, fun _ => herr,
      fun hne => absurd h hne⟩
  · refine ⟨⟨?_, fun he => absurd he h⟩, fun he => absurd he h, ?_⟩
    · rintro ⟨e, he⟩
      simp [NewClient, h] at he
    · intro _
      exact ⟨{ xrpcClient := { Host := cfg.PdsHost, Auth := none }
               pdsHost := cfg.PdsHost, loggedIn := false },
        by simp only [NewClient, h, if_false], rfl, rfl, rfl, rfl⟩

theorem NewClient_error_iff_witness :
    NewClient { PdsHost := "" } = .error "PDS host is required" ∧
    ∃ c, NewClient { PdsHost := "https://bsky.social" } = .ok c ∧
      c.PdsHost = "https://bsky.social" ∧ c.IsLoggedIn = false ∧
      c.xrpcClient.Host = "https://bsky.social" ∧ c.xrpcClient.Auth = none :=
  ⟨(NewClient_error_iff { PdsHost := "" }).2.1 rfl,
   (NewClient_error_iff { PdsHost := "https://bsky.social" }).2.2 (by decide)⟩

/-- C12: `Login` with an empty identifier or an empty password fails without
a call to the PDS and leaves the client as it was; and on a client made by
`NewClient` on which every `Login` so far has failed, `GetProfile` fails with
"client not authenticated" for every handle, whatever the PDS would answer,
and sends no call. -/
theorem GetProfile_requires_login (cfg : Config) (c0 : Client)
    (hnew : NewClient cfg = .ok c0) (attempts : List Attempt)
    (hfail : ∀ e ∈ (loginAll c0 attempts).2, e ≠ none) :
    (∀ (pds : Remote) (c : Client) (identifier password : String),
      identifier = "" ∨ password = "" →
        (Login pds c identifier password).err = some "identifier and password are required" ∧
        (Login pds c identifier password).client = c ∧
        (Login pds c identifier password).calls = []) ∧
    (loginAll c0 attempts).1 = c0 ∧
    (loginAll c0 attempts).1.IsLoggedIn = false ∧
    (∀ (pds : Remote) (handle : String),
      (GetProfile pds (loginAll c0 attempts).1 handle).result =
        .error "client not authenticated" ∧
      (GetProfile pds (loginAll c0 attempts).1 handle).calls = []) := by
  have hc := loginAll_failed_unchanged attempts c0 hfail
  have hlog : c0.loggedIn = false := by
    unfold NewClient at hnew
    split at hnew
    · cases hnew
    · cases hnew
      rfl
  refine ⟨?_, hc, by rw [hc]; exact hlog, ?_⟩
  · intro pds c identifier password hempty
    simp [Login, hempty]
  · intro pds handle
    rw [hc]
    simp [GetProfile, hlog]

theorem GetProfile_requires_login_witness :
    NewClient { PdsHost := "https://bsky.social" } = .ok sampleClient ∧
    (∀ e ∈ (loginAll sampleClient failedAttempts).2, e ≠ none) ∧
    (∀ (pds : Remote) (c : Client) (identifier password : String),
      identifier = "" ∨ password = "" →
        (Login pds c identifier password).err = some "identifier and password are required" ∧
        (Login pds c identifier password).client = c ∧
        (Login pds c identifier password).calls = []) ∧
    (loginAll sampleClient failedAttempts).1 = sampleClient ∧
    (loginAll sampleClient failedAttempts).1.IsLoggedIn = false ∧
    (∀ (pds : Remote) (handle : String),
      (GetProfile pds (loginAll sampleClient failedAttempts).1 handle).result =
        .error "client not authenticated" ∧
      (GetProfile pds (loginAll sampleClient failedAttempts).1 handle).calls = []) :=
  ⟨rfl, by decide,
    GetProfile_requires_login { PdsHost := "https://bsky.social" } sampleClient rfl
      failedAttempts (by decide)⟩

end atproto

/-! ## Client metadata -/

/-- C13, as the code has it: `ClientMetadata` answers 200 with a JSON object
and writes nothing to the database or the session; the object has the fixed
name, scope, grant types and response types, its identifier is
`base ++ "/client-metadata.json"` and its only redirect URL is
`base ++ "/oauth/callback"`, where `base` is the configured public URL when
that is not empty and `"http://"` followed by the request's `Host` otherwise.
With a configured public URL the answer is the same for every request; without
one it is the same for requests with the same `Host`. -/
theorem ClientMetadata_descriptor (h : Handlers) (r : Request) :
    (ClientMetadata h r).code = 200 ∧
    (ClientMetadata h r).db = h.db ∧
    (ClientMetadata h r).saved = [] ∧
    (ClientMetadata h r).setCookie = none ∧
    (ClientMetadata h r).json.get "client_name" =
      some (.str "AT Protocol Express App (Go)") ∧
    (ClientMetadata h r).json.get "scope" = some (.str "atproto transition:generic") ∧
    (ClientMetadata h r).json.get "grant_types" =
      some (.strings ["authorization_code", "refresh_token"]) ∧
    (ClientMetadata h r).json.get "response_types" = some (.strings ["code"]) ∧
    (ClientMetadata h r).json.get "client_id" =
      some (.str ((if h.cfg.PublicURL = "" then "http://" ++ r.Host else h.cfg.PublicURL)
        ++ "/client-metadata.json")) ∧
    (ClientMetadata h r).json.get "redirect_uris" =
      some (.strings [(if h.cfg.PublicURL = "" then "http://" ++ r.Host else h.cfg.PublicURL)
        ++ "/oauth/callback"]) ∧
    (h.cfg.PublicURL ≠ "" →
      (ClientMetadata h r).json.get "client_id" =
        some (.str (h.cfg.PublicURL ++ "/client-metadata.json")) ∧
      (ClientMetadata h r).json.get "redirect_uris" =
        some (.strings [h.cfg.PublicURL ++ "/oauth/callback"]) ∧
      ∀ r2 : Request, ClientMetadata h r2 = ClientMetadata h r) ∧
    (∀ r2 : Request, r2.Host = r.Host → ClientMetadata h r2 = ClientMetadata h r) := by
  refine ⟨rfl, rfl, rfl, rfl, rfl, rfl, rfl, rfl, rfl, rfl, ?_, ?_⟩
  · intro hne
    refine ⟨?_, ?_, ?_⟩
    · show some (JsonValue.str ((if h.cfg.PublicURL = "" then "http://" ++ r.Host
        else h.cfg.PublicURL) ++ "/client-metadata.json")) = _
      rw [if_neg hne]
    · show some (JsonValue.strings [(if h.cfg.PublicURL = "" then "http://" ++ r.Host
        else h.cfg.PublicURL) ++ "/oauth/callback"]) = _
      rw [if_neg hne]
    · intro r2
      simp only [ClientMetadata, if_neg hne]
  · intro r2 hhost
    simp only [ClientMetadata, hhost]

theorem ClientMetadata_descriptor_witness :
    (ClientMetadata configuredHandlers sampleRequest).json.get "client_id" =
      some (.str (configuredHandlers.cfg.PublicURL ++ "/client-metadata.json")) ∧
    (ClientMetadata configuredHandlers sampleRequest).json.get "redirect_uris" =
      some (.strings [configuredHandlers.cfg.PublicURL ++ "/oauth/callback"]) ∧
    ∀ r2 : Request,
      ClientMetadata configuredHandlers r2 = ClientMetadata configuredHandlers sampleRequest :=
  (ClientMetadata_descriptor configuredHandlers sampleRequest).2.2.2.2.2.2.2.2.2.2.1
    (by decide)

/-- C13 as stated fails when no public URL is configured: the identifier is
built from the request's `Host`, not from the configured public URL, and two
requests with different `Host` get different descriptors. -/
theorem ClientMetadata_depends_on_host :
    sampleHandlers.cfg.PublicURL = "" ∧
    (ClientMetadata sampleHandlers sampleRequest).json.get "client_id" =
      some (.str "http://127.0.0.1:8080/client-metadata.json") ∧
    (ClientMetadata sampleHandlers sampleRequest).json.get "client_id" ≠
      some (.str (sampleHandlers.cfg.PublicURL ++ "/client-metadata.json")) ∧
    (ClientMetadata sampleHandlers otherHostRequest).json.get "client_id" =
      some (.str "http://status.example/client-metadata.json") ∧
    ClientMetadata sampleHandlers otherHostRequest ≠
      ClientMetadata sampleHandlers sampleRequest := by
  decide

/-! ## One row per author -/

theorem statusURI_injective (a b : String) (h : statusURI a = statusURI b) : a = b := by
  have hd := congrArg String.data h
  simp only [statusURI, String.data_append] at hd
  exact String.ext (List.append_cancel_left (List.append_cancel_right hd))

theorem UpdateStatus_found (h : Handlers) (r : Request) (now : String)
    (hcode : (UpdateStatus h r now).resp.code = 302) :
    sessionDID h r ≠ "" ∧ formStatus r ≠ "" ∧
    SaveStatus h.db
      { URI := statusURI (sessionDID h r), AuthorDID := sessionDID h r,
        Status := formStatus r, CreatedAt := now, IndexedAt := now } =
      .ok (UpdateStatus h r now).db := by
  unfold sessionDID formStatus statusURI
  unfold UpdateStatus at hcode ⊢
  cases hv : (h.store.Get r "sid").index (.str "did") with
  | none =>
    simp [hv, assertString, httpError, Response.new, StatusUnauthorized] at hcode
  | some v =>
    cases v with
    | int i => simp [hv, assertString, httpError, Response.new, StatusUnauthorized] at hcode
    | bool b => simp [hv, assertString, httpError, Response.new, StatusUnauthorized] at hcode
    | str d =>
      by_cases hd : d = ""
      · simp [hv, hd, assertString, httpError, Response.new, StatusUnauthorized] at hcode
      · cases hf : r.form with
        | error e =>
          simp [hv, hd, hf, assertString, httpError, Response.new, StatusBadRequest] at hcode
        | ok form =>
          by_cases ht : FormValue form "status" = ""
          · simp [hv, hd, hf, ht, assertString, httpError, Response.new, StatusBadRequest]
              at hcode
          · obtain ⟨db', hsave, -⟩ := SaveStatus_spec h.db
              { URI := "at://" ++ d ++ "/xyz.statusphere.status/temporary"
                AuthorDID := d, Status := FormValue form "status"
                CreatedAt := now, IndexedAt := now }
            simp [hv, hd, ht, assertString, hsave]

theorem SaveStatus_mem (db db' : DB) (st row : Status) (h : SaveStatus db st = .ok db')
    (hrow : row ∈ db'.status) :
    row = st ∨ ∃ old ∈ db.status, row.URI = old.URI ∧ row.AuthorDID = old.AuthorDID := by
  unfold SaveStatus at h
  split at h
  · cases h
    obtain ⟨old, hold, hmap⟩ := List.mem_map.mp hrow
    refine Or.inr ⟨old, hold, ?_⟩
    rw [← hmap]
    split <;> exact ⟨rfl, rfl⟩
  · cases h
    rcases List.mem_append.mp hrow with hmem | hmem
    · exact Or.inr ⟨row, hmem, rfl, rfl⟩
    · exact Or.inl (List.mem_singleton.mp hmem)

theorem authorRows_eq_statusRows (db : DB)
    (huri : ∀ row ∈ db.status, row.URI = statusURI row.AuthorDID) (a : String) :
    db.authorRows a = db.statusRows (statusURI a) := by
  unfold DB.authorRows DB.statusRows
  apply List.filter_congr
  intro row hrow
  by_cases ha : row.AuthorDID = a
  · have : row.URI = statusURI a := by rw [huri row hrow, ha]
    simp [ha, this]
  · have : ¬ row.URI = statusURI a := by
      intro hu
      rw [huri row hrow] at hu
      exact ha (statusURI_injective _ _ hu)
    simp [ha, this]

theorem serveUpdates_snoc (h : Handlers) (steps : List (Request × String)) (r : Request)
    (now : String) :
    serveUpdates h (steps ++ [(r, now)]) =
      ((UpdateStatus { h with db := (serveUpdates h steps).1 } r now).db,
        (serveUpdates h steps).2 ++
          [(UpdateStatus { h with db := (serveUpdates h steps).1 } r now).resp]) := by
  simp [serveUpdates, List.foldl_append]

theorem serveUpdates_rows (h : Handlers) (hempty : h.db = DB.empty)
    (steps : List (Request × String)) :
    (∀ resp ∈ (serveUpdates h steps).2, resp.code = 302) →
    (serveUpdates h steps).1.Valid ∧
    (∀ row ∈ (serveUpdates h steps).1.status, row.URI = statusURI row.AuthorDID) ∧
    ∀ d, (serveUpdates h steps).1.authorRows d =
      specAuthorRows d (steps.filter (fun s => sessionDID h s.1 = d)) := by
  induction steps using List.reverseRecOn with
  | nil =>
    intro _
    have hdb : (serveUpdates h []).1 = DB.empty := hempty
    rw [hdb]
    exact ⟨by decide, fun row hrow => absurd hrow (List.not_mem_nil row), fun d => rfl⟩
  | append_singleton steps s ih =>
    obtain ⟨r, now⟩ := s
    intro hok
    rw [serveUpdates_snoc] at hok ⊢
    have hprev : ∀ resp ∈ (serveUpdates h steps).2, resp.code = 302 :=
      fun resp hresp => hok resp (List.mem_append_left _ hresp)
    obtain ⟨hvalid, huri, hrows⟩ := ih hprev
    have hcode := hok _ (List.mem_append_right _ (List.mem_singleton_self _))
    obtain ⟨-, -, hsave⟩ :=
      UpdateStatus_found { h with db := (serveUpdates h steps).1 } r now hcode
    have hdid : sessionDID { h with db := (serveUpdates h steps).1 } r = sessionDID h r := rfl
    rw [hdid] at hsave
    simp only at hsave ⊢
    generalize (UpdateStatus { h with db := (serveUpdates h steps).1 } r now).db = db1 at hsave ⊢
    generalize (serveUpdates h steps).1 = db0 at hvalid huri hrows hsave
    have hvalid1 : db1.Valid := SaveStatus_valid db0 db1 _ hvalid hsave
    have huri1 : ∀ row ∈ db1.status, row.URI = statusURI row.AuthorDID := by
      intro row hrow
      rcases SaveStatus_mem db0 db1 _ row hsave hrow with heq | ⟨old, hold, h1, h2⟩
      · rw [heq]
      · rw [h1, h2]; exact huri old hold
    refine ⟨hvalid1, huri1, ?_⟩
    intro d
    obtain ⟨db2, hsave2, -, -, hframe, hnew, -, hupd, -, -⟩ := SaveStatus_spec db0
      { URI := statusURI (sessionDID h r), AuthorDID := sessionDID h r,
        Status := formStatus r, CreatedAt := now, IndexedAt := now }
    rw [hsave] at hsave2
    cases hsave2
    rw [authorRows_eq_statusRows db1 huri1 d, List.filter_append]
    have hprevrows := hrows d
    rw [authorRows_eq_statusRows db0 huri d] at hprevrows
    by_cases hd : sessionDID h r = d
    · have hlast : List.filter (fun s : Request × String => decide (sessionDID h s.1 = d))
          [(r, now)] = [(r, now)] := by simp [List.filter_cons, hd]
      rw [hlast]
      simp only at hnew hupd
      rw [hd] at hnew hupd
      cases hfs : List.filter (fun s : Request × String => decide (sessionDID h s.1 = d)) steps with
      | nil =>
        rw [hfs] at hprevrows
        rw [hnew hprevrows]
        simp [specAuthorRows, hd]
      | cons first rest =>
        rw [hfs] at hprevrows
        have hne : db0.statusRows (statusURI d) ≠ [] := by
          rw [hprevrows]; simp [specAuthorRows]
        rw [hupd hne, hprevrows]
        simp [specAuthorRows]
    · have hlast : List.filter (fun s : Request × String => decide (sessionDID h s.1 = d))
          [(r, now)] = [] := by simp [List.filter_cons, hd]
      rw [hlast, List.append_nil, ← hprevrows]
      apply hframe
      intro hu
      exact hd (statusURI_injective _ _ hu).symm

theorem UpdateStatus_saved_uri (h : Handlers) (r : Request) (now : String) (st : Status)
    (hst : st ∈ (UpdateStatus h r now).saved) :
    st.URI = statusURI (sessionDID h r) ∧ st.AuthorDID = sessionDID h r := by
  unfold sessionDID statusURI
  unfold UpdateStatus at hst
  cases hv : (h.store.Get r "sid").index (.str "did") with
  | none => simp [hv, assertString] at hst
  | some v =>
    cases v with
    | int i => simp [hv, assertString] at hst
    | bool b => simp [hv, assertString] at hst
    | str d =>
      by_cases hd : d = ""
      · simp [hv, hd, assertString] at hst
      · cases hf : r.form with
        | error e => simp [hv, hd, hf, assertString] at hst
        | ok form =>
          by_cases ht : FormValue form "status" = ""
          · simp [hv, hd, hf, ht, assertString] at hst
          · obtain ⟨db', hsave, -⟩ := SaveStatus_spec h.db
              { URI := "at://" ++ d ++ "/xyz.statusphere.status/temporary"
                AuthorDID := d, Status := FormValue form "status"
                CreatedAt := now, IndexedAt := now }
            simp [hv, hd, hf, ht, assertString, hsave] at hst
            rw [hst]
            exact ⟨rfl, rfl⟩

/-- C14: from an empty database, after any series of `UpdateStatus` requests
that were all answered with the redirect, every author has at most one row;
every row, and every record `UpdateStatus` hands to `SaveStatus`, has the uri
`"at://" ++ author ++ "/xyz.statusphere.status/temporary"`, whatever the text
and the time; an identity that submitted nothing has no row, and an identity
that submitted has exactly one row, with the text and `indexedAt` of its
latest submission and the `createdAt` of its first. -/
theorem UpdateStatus_one_row_per_author (h : Handlers) (hempty : h.db = DB.empty)
    (steps : List (Request × String))
    (hok : ∀ resp ∈ (serveUpdates h steps).2, resp.code = 302) :
    (∀ a, ((serveUpdates h steps).1.authorRows a).length ≤ 1) ∧
    (∀ row ∈ (serveUpdates h steps).1.status,
      row.URI = "at://" ++ row.AuthorDID ++ "/xyz.statusphere.status/temporary") ∧
    (∀ (h2 : Handlers) (r : Request) (now : String), ∀ st ∈ (UpdateStatus h2 r now).saved,
      st.URI = "at://" ++ sessionDID h2 r ++ "/xyz.statusphere.status/temporary" ∧
      st.AuthorDID = sessionDID h2 r) ∧
    (∀ d, steps.filter (fun s => sessionDID h s.1 = d) = [] →
      (serveUpdates h steps).1.authorRows d = []) ∧
    (∀ d first rest, steps.filter (fun s => sessionDID h s.1 = d) = first :: rest →
      (serveUpdates h steps).1.authorRows d =
        [{ URI := "at://" ++ d ++ "/xyz.statusphere.status/temporary"
           AuthorDID := d
           Status := formStatus (rest.getLastD first).1
           CreatedAt := first.2
           IndexedAt := (rest.getLastD first).2 }]) := by
  obtain ⟨-, huri, hrows⟩ := serveUpdates_rows h hempty steps hok
  refine ⟨?_, huri, fun h2 r now st hst => UpdateStatus_saved_uri h2 r now st hst, ?_, ?_⟩
  · intro a
    rw [hrows a]
    cases steps.filter (fun s => sessionDID h s.1 = a) with
    | nil => exact Nat.zero_le 1
    | cons first rest => exact Nat.le_refl 1
  · intro d hnone
    rw [hrows d, hnone]
    rfl
  · intro d first rest hsome
    rw [hrows d, hsome]
    rfl

theorem UpdateStatus_one_row_per_author_witness :
    freshHandlers.db = DB.empty ∧
    (∀ resp ∈ (serveUpdates freshHandlers sampleSteps).2, resp.code = 302) ∧
    (∀ a, ((serveUpdates freshHandlers sampleSteps).1.authorRows a).length ≤ 1) ∧
    (∀ row ∈ (serveUpdates freshHandlers sampleSteps).1.status,
      row.URI = "at://" ++ row.AuthorDID ++ "/xyz.statusphere.status/temporary") ∧
    (∀ (h2 : Handlers) (r : Request) (now : String), ∀ st ∈ (UpdateStatus h2 r now).saved,
      st.URI = "at://" ++ sessionDID h2 r ++ "/xyz.statusphere.status/temporary" ∧
      st.AuthorDID = sessionDID h2 r) ∧
    (∀ d, sampleSteps.filter (fun s => sessionDID freshHandlers s.1 = d) = [] →
      (serveUpdates freshHandlers sampleSteps).1.authorRows d = []) ∧
    (∀ d first rest,
      sampleSteps.filter (fun s => sessionDID freshHandlers s.1 = d) = first :: rest →
      (serveUpdates freshHandlers sampleSteps).1.authorRows d =
        [{ URI := "at://" ++ d ++ "/xyz.statusphere.status/temporary"
           AuthorDID := d
           Status := formStatus (rest.getLastD first).1
           CreatedAt := first.2
           IndexedAt := (rest.getLastD first).2 }]) :=
  ⟨rfl, by decide, UpdateStatus_one_row_per_author freshHandlers rfl sampleSteps (by decide)⟩

end Statusphere
